import Mathlib

/-!
Shallow embedding of `ioctx.go` from the go-ceph `rados` package.

The Go file is a thin binding over librados: every exported method marshals
its arguments, issues one native call, and maps the returned status code to
a Go error.  We embed each method as a pure Lean function parametrised by
the behaviour of the native backend (the status code, and where relevant the
bytes, that the native call would return).  Effects that matter to the
specification — which native calls were issued, whether the Go runtime
panicked, whether the list cursor was closed — are made explicit in the
return values.
-/

namespace Rados

/-- `RadosError` wraps the native status code verbatim (`type RadosError int`
in the Go sources; the spec calls it `StorageError(code)`). -/
structure RadosError where
  code : Int
  deriving DecidableEq, Repr

/-- Result of running a Go function body: either a normal return value or a
runtime panic carrying the panic message. -/
inductive GoResult (α : Type) where
  | ok (val : α)
  | panicked (msg : String)
  deriving DecidableEq, Repr

/-- Behaviour of `rados_write`: given the object id, the data bytes passed and
the offset, the status code the native call returns.  Bytes are modelled as
`Nat` (their numeric value; no arithmetic is performed on them). -/
def WriteBackend : Type := String → List Nat → Nat → Int

/-- Embedding of `IOContext.Write` (src/ioctx.go lines 43-57).  The Go body
evaluates `&data[0]` unconditionally while building the argument list of
`C.rados_write`; on a zero-length slice this indexing operation panics at
runtime before any native call is made.  Otherwise the native status is
mapped: `ret == 0` returns nil, anything else returns `RadosError(ret)`. -/
def Write (b : WriteBackend) (oid : String) (data : List Nat) (offset : Nat) :
    GoResult (Option RadosError) :=
  if data.length = 0 then
    .panicked "runtime error: index out of range"
  else
    let ret := b oid data offset
    if ret = 0 then .ok none else .ok (some ⟨ret⟩)

/-- One native `rados_read` call as it appears in the call trace: the object
id, the buffer length passed, and the offset. -/
structure ReadCall where
  oid : String
  len : Nat
  off : Nat
  deriving DecidableEq, Repr

/-- Behaviour of `rados_read`: given object id, buffer length and offset, the
status code returned and the bytes the native call writes into the buffer
(at most the buffer length many; exactly `status` many on success). -/
def ReadBackend : Type := String → Nat → Nat → Int × List Nat

/-- The caller's buffer after the native call wrote `written` into its front:
the written bytes (clipped to the buffer length) followed by the untouched
tail of the original buffer. -/
def writeInto (buf written : List Nat) : List Nat :=
  written.take buf.length ++ buf.drop (written.take buf.length).length

/-- Everything observable about one execution of `Read`: the returned byte
count, the returned error, the caller's buffer after the call, and the list
of native calls issued. -/
structure ReadOutcome where
  count : Int
  error : Option RadosError
  buf : List Nat
  calls : List ReadCall
  deriving DecidableEq, Repr

/-- Embedding of `IOContext.Read` (src/ioctx.go lines 61-81).  A zero-length
buffer short-circuits to `(0, nil)` with no native call; otherwise one
`rados_read` is issued and a non-negative status yields `(status, nil)`
while a negative status yields `(0, RadosError(status))`. -/
def Read (b : ReadBackend) (oid : String) (data : List Nat) (offset : Nat) :
    ReadOutcome :=
  if data.length = 0 then
    ⟨0, none, data, []⟩
  else
    let r := b oid data.length offset
    if 0 ≤ r.1 then
      ⟨r.1, none, writeInto data r.2, [⟨oid, data.length, offset⟩]⟩
    else
      ⟨0, some ⟨r.1⟩, data, [⟨oid, data.length, offset⟩]⟩

/-- Behaviour of `rados_ioctx_get_pool_name`: given the buffer length passed,
the status code returned and the characters the native call writes into the
buffer (strings are modelled as character lists here).  The Go code turns
the buffer into a string with `C.GoStringN(buf, ret)`, i.e. it takes the
first `ret` characters. -/
def PoolNameBackend : Type := Nat → Int × List Char

/-- The retry loop of `IOContext.GetPoolName` (src/ioctx.go lines 149-160),
with an explicit fuel argument standing for the number of loop iterations
still allowed (`none` means the fuel ran out before the loop returned; the
Go loop itself has no bound).  Status `-34` doubles the buffer and retries;
any other negative status returns `("", RadosError(ret))`; a non-negative
status returns the first `ret` characters of the buffer and nil. -/
def getPoolNameLoop (b : PoolNameBackend) :
    Nat → Nat → Option (List Char × Option RadosError)
  | 0, _ => none
  | fuel + 1, bufLen =>
    let r := b bufLen
    if r.1 = -34 then
      getPoolNameLoop b fuel (bufLen * 2)
    else if r.1 < 0 then
      some ([], some ⟨r.1⟩)
    else
      some (r.2.take r.1.toNat, none)

/-- Embedding of `IOContext.GetPoolName` (src/ioctx.go lines 147-161): run the
retry loop starting from the fixed initial buffer size of 128 bytes. -/
def GetPoolName (b : PoolNameBackend) (fuel : Nat) :
    Option (List Char × Option RadosError) :=
  getPoolNameLoop b fuel 128

/-- Behaviour of `rados_remove`: object id to status code. -/
def DeleteBackend : Type := String → Int

/-- Embedding of `IOContext.Delete` (src/ioctx.go lines 84-95): status `0`
returns nil, anything else returns `RadosError(ret)`. -/
def Delete (b : DeleteBackend) (oid : String) : Option RadosError :=
  let ret := b oid
  if ret = 0 then none else some ⟨ret⟩

/-- Behaviour of `rados_trunc`: object id and size to status code. -/
def TruncBackend : Type := String → Nat → Int

/-- Embedding of `IOContext.Truncate` (src/ioctx.go lines 101-112): status `0`
returns nil, anything else returns `RadosError(ret)`. -/
def Truncate (b : TruncBackend) (oid : String) (size : Nat) : Option RadosError :=
  let ret := b oid size
  if ret = 0 then none else some ⟨ret⟩

/-- One event in the trace of a `ListObjects` execution: a native
`rados_objects_list_next` call, or an invocation of the visit callback. -/
inductive LEvent where
  | callNext
  | callVisit (name : String)
  deriving DecidableEq, Repr

/-- How an execution of `ListObjects` ends: normal return of nil, return of a
`RadosError`, a panic raised by the visit callback, or no exit at all because
the modelled backend has no further answers for `rados_objects_list_next`
(standing for an execution that stays inside the loop). -/
inductive LOutcome where
  | ok
  | err (code : Int)
  | panicked (name : String)
  | hung
  deriving DecidableEq, Repr

/-- Behaviour of the listing backend: the status of
`rados_objects_list_open`, and the successive answers of
`rados_objects_list_next` as a list of (status, entry) pairs consumed in
order. -/
structure ListBackend where
  openStatus : Int
  nexts : List (Int × String)
  deriving DecidableEq, Repr

/-- Everything observable about one execution of `ListObjects`: how it ended,
the event trace of native next-calls and visit invocations, and whether
`rados_objects_list_close` ran on the cursor. -/
structure ListOutcome where
  outcome : LOutcome
  trace : List LEvent
  closed : Bool
  deriving DecidableEq, Repr

/-- The `for` loop of `IOContext.ListObjects` (src/ioctx.go lines 178-187),
consuming the backend's successive `rados_objects_list_next` answers.
`visitPanics` tells, for each entry name, whether the caller's `listFn`
panics when invoked on it.  Status `-2` returns nil; any other negative
status returns `RadosError(ret)`; otherwise the entry is visited (and a
panicking visit aborts the loop by unwinding) before the next fetch. -/
def listLoop (visitPanics : String → Bool) :
    List (Int × String) → LOutcome × List LEvent
  | [] => (.hung, [])
  | (ret, entry) :: rest =>
    if ret = -2 then
      (.ok, [.callNext])
    else if ret < 0 then
      (.err ret, [.callNext])
    else if visitPanics entry then
      (.panicked entry, [.callNext, .callVisit entry])
    else
      let r := listLoop visitPanics rest
      (r.1, .callNext :: .callVisit entry :: r.2)

/-- Embedding of `IOContext.ListObjects` (src/ioctx.go lines 170-190).  A
negative open status returns `RadosError` at once, before the close is
deferred, so the cursor is never opened nor closed.  After a successful open
the Go code defers `rados_objects_list_close(ctx)`, so the close runs on
every exit of the function body — normal return, error return, or panic
unwinding out of `listFn` — and only an execution that never leaves the loop
(`hung`) never reaches it. -/
def ListObjects (b : ListBackend) (visitPanics : String → Bool) : ListOutcome :=
  if b.openStatus < 0 then
    ⟨.err b.openStatus, [], false⟩
  else
    let r := listLoop visitPanics b.nexts
    ⟨r.1, r.2, r.1 ≠ .hung⟩

/-- Behaviour of `rados_ioctx_selfmanaged_snap_create`: the status code and
the snapshot id the native call stores through the out-pointer.  A
`Snapshot` is an opaque 64-bit id; it is modelled as a `Nat` on which no
arithmetic is performed. -/
structure SnapCreateBackend where
  status : Int
  snapId : Nat
  deriving DecidableEq, Repr

/-- Embedding of `IOContext.CreateManagedSnapshot` (src/ioctx.go lines
237-245).  The returned `*Snapshot` is modelled as an `Option Nat`, `none`
standing for the nil pointer: a negative status returns
`(nil, RadosError(ret))`, otherwise the address of the local `snap`
variable — never nil — is returned with a nil error. -/
def CreateManagedSnapshot (b : SnapCreateBackend) : Option Nat × Option RadosError :=
  if b.status < 0 then
    (none, some ⟨b.status⟩)
  else
    (some b.snapId, none)

/-- The event trace described by the specification of `ListObjects`: for each
name yielded by the cursor, in order, one native next-call followed at once
by one visit of that name, and then the final next-call that reports the
terminal status.  Defined from the spec's words, to be compared with the
trace the embedded code produces. -/
def specListTrace (names : List String) : List LEvent :=
  names.foldr (fun n acc => .callNext :: .callVisit n :: acc) [.callNext]

/-- Modelled from the spec: the storage backend (librados and the cluster
behind it) is not part of this repository, so its object model is taken from
the spec — a pool maps each object name to a variable-length byte blob
(absent objects hold the empty blob). -/
def Store : Type := String → List Nat

/-- Modelled from the spec: writing `data` at byte offset `off` overwrites
the covered range but does not truncate beyond it; if `off` lies past the
current end, the gap is zero-filled. -/
def writeAt (old data : List Nat) (off : Nat) : List Nat :=
  (old.take off ++ List.replicate (off - old.length) 0) ++
    data ++ old.drop (off + data.length)

/-- Modelled from the spec: the pool state after the backend performs
`write(oid, data, off)`. -/
def storeWrite (s : Store) (oid : String) (data : List Nat) (off : Nat) : Store :=
  fun o => if o = oid then writeAt (s o) data off else s o

/-- Modelled from the spec: the bytes `read(oid, len, off)` yields — up to
`len` bytes of the object's content starting at `off`, fewer at
end-of-object. -/
def storeReadBytes (s : Store) (oid : String) (len off : Nat) : List Nat :=
  ((s oid).drop off).take len

/-- Modelled from the spec: a backend on which `write` succeeds, reporting
status 0. -/
def storeWriteBackend : WriteBackend := fun _ _ _ => 0

/-- Modelled from the spec: the read side of the backend over a pool state —
the status is the (non-negative) count of bytes read, and those bytes are
written into the caller's buffer. -/
def storeReadBackend (s : Store) : ReadBackend :=
  fun oid len off =>
    let bs := storeReadBytes s oid len off
    (Int.ofNat bs.length, bs)

/-- A pool name of 200 characters, longer than the initial 128-byte buffer,
used to exercise the retry path of `GetPoolName`. -/
def poolNameEx : List Char := List.replicate 200 'a'

/-- A pool-name backend that reports buffer-too-small (-34) for every buffer
shorter than 200 and succeeds, yielding `poolNameEx`, from 200 on. -/
def poolBackendEx : PoolNameBackend := fun n =>
  if n < 200 then (-34, []) else (Int.ofNat 200, poolNameEx)

/-- A pool-name backend that always fails with status -7. -/
def poolBackendErr : PoolNameBackend := fun _ => (-7, [])

/-- C1: the claim says `Write` with zero-length data succeeds (returns nil)
for every object id and offset without dereferencing an invalid pointer.
The code instead evaluates `&data[0]` on the empty slice before calling the
backend, so every such call panics with an index-out-of-range runtime error
— whatever the backend would have answered. -/
theorem C1_write_empty_data_panics (b : WriteBackend) (oid : String) (offset : Nat) :
    Write b oid [] offset = .panicked "runtime error: index out of range" := rfl

/-- C2 counterexample: the claim says `Write` returns nil whenever the
backend status is non-negative; with backend status 1 (non-negative) the
code returns `RadosError(1)`, not nil. -/
theorem C2_positive_status_not_nil :
    Write (fun _ _ _ => 1) "obj" [7] 0 ≠ .ok none := by decide

/-- C2 (amended): `Write` (on non-empty data), `Delete` and `Truncate`
return nil exactly when the backend status is zero, and return
`RadosError(code)` for every nonzero status — negative or positive. -/
theorem C2_zero_status_is_success (wb : WriteBackend) (db : DeleteBackend)
    (tb : TruncBackend) (oid : String) (d : Nat) (ds : List Nat)
    (offset size : Nat) :
    (Write wb oid (d :: ds) offset = .ok none ↔ wb oid (d :: ds) offset = 0) ∧
    (wb oid (d :: ds) offset ≠ 0 →
      Write wb oid (d :: ds) offset = .ok (some ⟨wb oid (d :: ds) offset⟩)) ∧
    (Delete db oid = none ↔ db oid = 0) ∧
    (db oid ≠ 0 → Delete db oid = some ⟨db oid⟩) ∧
    (Truncate tb oid size = none ↔ tb oid size = 0) ∧
    (tb oid size ≠ 0 → Truncate tb oid size = some ⟨tb oid size⟩) := by
  refine ⟨?_, ?_, ?_, ?_, ?_, ?_⟩ <;>
    · by_cases h0 : wb oid (d :: ds) offset = 0 <;>
      by_cases h1 : db oid = 0 <;>
      by_cases h2 : tb oid size = 0 <;>
      simp [Write, Delete, Truncate, h0, h1, h2]

/-- C2 witness: concrete backends with nonzero statuses 5, -2 and 3 make
`Write`, `Delete` and `Truncate` return the corresponding `RadosError`. -/
theorem C2_zero_status_is_success_witness :
    Write (fun _ _ _ => 5) "a" [1] 0 = .ok (some ⟨5⟩) ∧
    Delete (fun _ => -2) "a" = some ⟨-2⟩ ∧
    Truncate (fun _ _ => 3) "a" 9 = some ⟨3⟩ :=
  ⟨(C2_zero_status_is_success (fun _ _ _ => 5) (fun _ => -2) (fun _ _ => 3)
      "a" 1 [] 0 9).2.1 (by decide),
   (C2_zero_status_is_success (fun _ _ _ => 5) (fun _ => -2) (fun _ _ => 3)
      "a" 1 [] 0 9).2.2.2.1 (by decide),
   (C2_zero_status_is_success (fun _ _ _ => 5) (fun _ => -2) (fun _ _ => 3)
      "a" 1 [] 0 9).2.2.2.2.2 (by decide)⟩

/-- If the backend's status is non-negative on every buffer of length at
least `L`, then the `GetPoolName` loop started with positive fuel returns
some result whenever the current buffer would reach length `L` within the
available doublings. -/
theorem getPoolNameLoop_total (b : PoolNameBackend) (L : Nat)
    (hb : ∀ n, L ≤ n → 0 ≤ (b n).1) :
    ∀ fuel bufLen, L ≤ bufLen * 2 ^ fuel →
      ∃ r, getPoolNameLoop b (fuel + 1) bufLen = some r := by
  intro fuel
  induction fuel with
  | zero =>
    intro bufLen h
    rw [pow_zero, mul_one] at h
    have h0 : 0 ≤ (b bufLen).1 := hb bufLen h
    have h34 : (b bufLen).1 ≠ -34 := by omega
    refine ⟨((b bufLen).2.take (b bufLen).1.toNat, none), ?_⟩
    simp [getPoolNameLoop, h34, not_lt.mpr h0]
  | succ fuel ih =>
    intro bufLen h
    by_cases h34 : (b bufLen).1 = -34
    · have h2 : L ≤ bufLen * 2 * 2 ^ fuel := by
        rw [pow_succ] at h
        calc L ≤ bufLen * (2 ^ fuel * 2) := h
          _ = bufLen * 2 * 2 ^ fuel := by ring
      obtain ⟨r, hr⟩ := ih (bufLen * 2) h2
      exact ⟨r, by simpa [getPoolNameLoop, h34] using hr⟩
    · by_cases hneg : (b bufLen).1 < 0
      · exact ⟨([], some ⟨(b bufLen).1⟩), by simp [getPoolNameLoop, h34, hneg]⟩
      · exact ⟨((b bufLen).2.take (b bufLen).1.toNat, none),
          by simp [getPoolNameLoop, h34, hneg]⟩

/-- If the backend reports -34 on every buffer shorter than the true name
and writes the full name with its length as status on every buffer at least
that long, the `GetPoolName` loop returns exactly the name. -/
theorem getPoolNameLoop_name (b : PoolNameBackend) (name : List Char)
    (hs : ∀ n, n < name.length → (b n).1 = -34)
    (hbig : ∀ n, name.length ≤ n → b n = (Int.ofNat name.length, name)) :
    ∀ fuel bufLen, name.length ≤ bufLen * 2 ^ fuel →
      getPoolNameLoop b (fuel + 1) bufLen = some (name, none) := by
  intro fuel
  induction fuel with
  | zero =>
    intro bufLen h
    rw [pow_zero, mul_one] at h
    have hb := hbig bufLen h
    have h0 : 0 ≤ (b bufLen).1 := by rw [hb]; exact Int.ofNat_nonneg _
    have h34 : (b bufLen).1 ≠ -34 := by omega
    simp [getPoolNameLoop, h34, not_lt.mpr h0, hb]
  | succ fuel ih =>
    intro bufLen h
    by_cases hbuf : name.length ≤ bufLen
    · have hb := hbig bufLen hbuf
      have h0 : 0 ≤ (b bufLen).1 := by rw [hb]; exact Int.ofNat_nonneg _
      have h34 : (b bufLen).1 ≠ -34 := by omega
      simp [getPoolNameLoop, h34, not_lt.mpr h0, hb]
    · have h34 := hs bufLen (not_le.mp hbuf)
      have h2 : name.length ≤ bufLen * 2 * 2 ^ fuel := by
        rw [pow_succ] at h
        calc name.length ≤ bufLen * (2 ^ fuel * 2) := h
          _ = bufLen * 2 * 2 ^ fuel := by ring
      rw [show fuel + 1 + 1 = (fuel + 1) + 1 from rfl]
      simp only [getPoolNameLoop, h34, if_pos]
      exact ih (bufLen * 2) h2

/-- C4: `GetPoolName` starts with a 128-byte buffer; a -34 status doubles the
buffer and retries; any other negative status returns an empty name with
`RadosError(code)`; a non-negative status `ret` returns the first `ret`
characters of the buffer with a nil error, in that same iteration.  If the
backend succeeds on every buffer of length at least `L`, the loop
terminates with a result; and if additionally every shorter buffer gets
status -34 and every long enough buffer receives the full name, the result
is exactly that name with a nil error. -/
theorem C4_get_pool_name (b : PoolNameBackend) (fuel bufLen L : Nat)
    (name : List Char) :
    (GetPoolName b fuel = getPoolNameLoop b fuel 128) ∧
    ((b bufLen).1 = -34 →
      getPoolNameLoop b (fuel + 1) bufLen = getPoolNameLoop b fuel (bufLen * 2)) ∧
    ((b bufLen).1 < 0 → (b bufLen).1 ≠ -34 →
      getPoolNameLoop b (fuel + 1) bufLen = some ([], some ⟨(b bufLen).1⟩)) ∧
    (0 ≤ (b bufLen).1 →
      getPoolNameLoop b (fuel + 1) bufLen =
        some ((b bufLen).2.take (b bufLen).1.toNat, none)) ∧
    ((∀ n, L ≤ n → 0 ≤ (b n).1) →
      ∃ fl r, GetPoolName b fl = some r) ∧
    ((∀ n, n < name.length → (b n).1 = -34) →
      (∀ n, name.length ≤ n → b n = (Int.ofNat name.length, name)) →
      ∃ fl, GetPoolName b fl = some (name, none)) := by
  refine ⟨rfl, ?_, ?_, ?_, ?_, ?_⟩
  · intro h34
    simp [getPoolNameLoop, h34]
  · intro hneg h34
    simp [getPoolNameLoop, h34, hneg]
  · intro h0
    have h34 : (b bufLen).1 ≠ -34 := by omega
    simp [getPoolNameLoop, h34, not_lt.mpr h0]
  · intro hb
    have hL : L ≤ 128 * 2 ^ L := by
      calc L ≤ 2 ^ L := (Nat.lt_two_pow L).le
        _ ≤ 128 * 2 ^ L := Nat.le_mul_of_pos_left _ (by norm_num)
    obtain ⟨r, hr⟩ := getPoolNameLoop_total b L hb L 128 hL
    exact ⟨L + 1, r, hr⟩
  · intro hs hbig
    have hL : name.length ≤ 128 * 2 ^ name.length := by
      calc name.length ≤ 2 ^ name.length := (Nat.lt_two_pow _).le
        _ ≤ 128 * 2 ^ name.length := Nat.le_mul_of_pos_left _ (by norm_num)
    exact ⟨name.length + 1,
      getPoolNameLoop_name b name hs hbig name.length 128 hL⟩

/-- C4 witness: against `poolBackendEx` (name of 200 characters, -34 below a
200-byte buffer) the loop doubles 128 to 256 and returns the full name; one
fixed -7 failure returns the empty name with `RadosError(-7)`; and the loop
terminates on both scenario backends. -/
theorem C4_get_pool_name_witness :
    (getPoolNameLoop poolBackendEx 2 128 = getPoolNameLoop poolBackendEx 1 256) ∧
    (getPoolNameLoop poolBackendErr 1 128 = some ([], some ⟨-7⟩)) ∧
    (getPoolNameLoop poolBackendEx 1 256 = some (poolNameEx, none)) ∧
    (∃ fl r, GetPoolName poolBackendEx fl = some r) ∧
    (∃ fl, GetPoolName poolBackendEx fl = some (poolNameEx, none)) := by
  have hlen : poolNameEx.length = 200 := by
    rw [poolNameEx, List.length_replicate]
  have hb256 : poolBackendEx 256 = (Int.ofNat 200, poolNameEx) := by
    simp only [poolBackendEx]
    rw [if_neg (by omega)]
  have hs : ∀ n, n < poolNameEx.length → (poolBackendEx n).1 = -34 := by
    intro n hn
    rw [hlen] at hn
    simp only [poolBackendEx]
    rw [if_pos hn]
  have hbig : ∀ n, poolNameEx.length ≤ n →
      poolBackendEx n = (Int.ofNat poolNameEx.length, poolNameEx) := by
    intro n hn
    rw [hlen] at hn ⊢
    simp only [poolBackendEx]
    rw [if_neg (not_lt.mpr hn)]
  refine ⟨?_, ?_, ?_, ?_, ?_⟩
  · exact (C4_get_pool_name poolBackendEx 1 128 0 []).2.1 (by decide)
  · exact (C4_get_pool_name poolBackendErr 0 128 0 []).2.2.1 (by decide) (by decide)
  · have h := (C4_get_pool_name poolBackendEx 0 256 0 []).2.2.2.1
      (by rw [hb256]; exact Int.ofNat_nonneg _)
    rw [hb256] at h
    have ht : poolNameEx.take 200 = poolNameEx := by
      rw [poolNameEx, List.take_replicate, min_self]
    have h2 : some (poolNameEx.take 200, (none : Option RadosError)) =
        some (poolNameEx, none) := by rw [ht]
    exact h.trans h2
  · exact (C4_get_pool_name poolBackendEx 0 0 200 []).2.2.2.2.1
      (by
        intro n hn
        have h := hbig n (by omega)
        rw [h]
        exact Int.ofNat_nonneg _)
  · exact (C4_get_pool_name poolBackendEx 0 0 0 poolNameEx).2.2.2.2.2 hs hbig

/-- C3: for every backend, object id and offset, `Read` on a zero-length
buffer returns count 0 and a nil error, leaves the buffer untouched, and
issues no native call at all. -/
theorem C3_read_empty_buffer (b : ReadBackend) (oid : String) (offset : Nat) :
    Read b oid [] offset = ⟨0, none, [], []⟩ := rfl

/-- C8: on a non-empty buffer, `Read` returns the backend's byte count with a
nil error whenever the native status is non-negative, and returns count 0
with `RadosError(code)` whenever the status is negative. -/
theorem C8_read_status_mapping (b : ReadBackend) (oid : String) (d : Nat)
    (ds : List Nat) (offset : Nat) :
    (0 ≤ (b oid (d :: ds).length offset).1 →
      (Read b oid (d :: ds) offset).count = (b oid (d :: ds).length offset).1 ∧
      (Read b oid (d :: ds) offset).error = none) ∧
    ((b oid (d :: ds).length offset).1 < 0 →
      Read b oid (d :: ds) offset =
        ⟨0, some ⟨(b oid (d :: ds).length offset).1⟩, d :: ds,
          [⟨oid, (d :: ds).length, offset⟩]⟩) := by
  constructor
  · intro h
    simp only [List.length_cons] at h
    simp [Read, h]
  · intro h
    simp only [List.length_cons] at h
    simp [Read, not_le.mpr h]

/-- C8 witness: a backend reporting count 1 yields `(1, nil)`, and a backend
reporting status -5 yields `(0, RadosError(-5))`. -/
theorem C8_read_status_mapping_witness :
    (Read (fun _ _ _ => (1, [9])) "o" [0] 0).count = 1 ∧
    (Read (fun _ _ _ => (1, [9])) "o" [0] 0).error = none ∧
    Read (fun _ _ _ => (-5, [])) "o" [0] 0 = ⟨0, some ⟨-5⟩, [0], [⟨"o", 1, 0⟩]⟩ :=
  ⟨((C8_read_status_mapping (fun _ _ _ => (1, [9])) "o" 0 [] 0).1 (by decide)).1,
   ((C8_read_status_mapping (fun _ _ _ => (1, [9])) "o" 0 [] 0).1 (by decide)).2,
   (C8_read_status_mapping (fun _ _ _ => (-5, [])) "o" 0 [] 0).2 (by decide)⟩

/-- C9: whenever `Read` returns a non-nil error, the returned byte count is
exactly 0 — a failing read never reports a partial count. -/
theorem C9_read_error_count_zero (b : ReadBackend) (oid : String)
    (data : List Nat) (offset : Nat) (e : RadosError)
    (h : (Read b oid data offset).error = some e) :
    (Read b oid data offset).count = 0 := by
  by_cases hlen : data.length = 0
  · simp [Read, hlen] at h
  · by_cases hs : 0 ≤ (b oid data.length offset).1
    · simp [Read, hlen, hs] at h
    · simp [Read, hlen, hs]

/-- C9 witness: a backend failing with status -5 makes `Read` report error
`RadosError(-5)` and count 0. -/
theorem C9_read_error_count_zero_witness :
    (Read (fun _ _ _ => (-5, [])) "o" [0] 0).error = some ⟨-5⟩ ∧
    (Read (fun _ _ _ => (-5, [])) "o" [0] 0).count = 0 :=
  ⟨by decide,
   C9_read_error_count_zero (fun _ _ _ => (-5, [])) "o" [0] 0 ⟨-5⟩ (by decide)⟩

/-- Running the listing loop over entries that are all yielded with a
non-negative status and visited without panic prepends, for each entry in
order, one next-call and one visit to whatever the rest of the answers
produce, and keeps the rest's outcome. -/
theorem listLoop_yields (vp : String → Bool) (yields rest : List (Int × String))
    (hge : ∀ p ∈ yields, 0 ≤ p.1) (hnp : ∀ p ∈ yields, vp p.2 = false) :
    listLoop vp (yields ++ rest) =
      ((listLoop vp rest).1,
        yields.foldr (fun p acc => LEvent.callNext :: LEvent.callVisit p.2 :: acc)
          (listLoop vp rest).2) := by
  induction yields with
  | nil => simp
  | cons p ps ih =>
    obtain ⟨ret, entry⟩ := p
    have h0 : 0 ≤ ret := hge (ret, entry) (by simp)
    have h2 : ret ≠ -2 := by omega
    have hv : vp entry = false := hnp (ret, entry) (by simp)
    have ih2 := ih (fun q hq => hge q (by simp [hq])) (fun q hq => hnp q (by simp [hq]))
    simp [listLoop, h2, not_lt.mpr h0, hv, ih2]

/-- C5: when the cursor opens successfully and the backend yields a list of
entries (non-negative statuses) followed by a terminal status, `ListObjects`
with a visitor that does not panic produces exactly the trace of the claim —
each yielded name visited exactly once, in order, between its own next-call
and the following one — and then returns nil if the terminal status is the
end-of-sequence value -2, or `RadosError(t)` for any other negative terminal
status `t`; while a negative open status aborts at once with
`RadosError(openSt)` and an empty trace, whatever the backend would have
yielded. -/
theorem C5_list_objects (openSt t : Int) (yields rest : List (Int × String))
    (junk : String) (vp : String → Bool)
    (hge : ∀ p ∈ yields, 0 ≤ p.1)
    (hnp : ∀ p ∈ yields, vp p.2 = false) :
    (0 ≤ openSt → t = -2 →
      ListObjects ⟨openSt, yields ++ (t, junk) :: rest⟩ vp =
        ⟨.ok, specListTrace (yields.map Prod.snd), true⟩) ∧
    (0 ≤ openSt → t < 0 → t ≠ -2 →
      ListObjects ⟨openSt, yields ++ (t, junk) :: rest⟩ vp =
        ⟨.err t, specListTrace (yields.map Prod.snd), true⟩) ∧
    (openSt < 0 → ∀ nexts, ListObjects ⟨openSt, nexts⟩ vp =
        ⟨.err openSt, [], false⟩) := by
  have hfold : specListTrace (yields.map Prod.snd) =
      yields.foldr (fun p acc => LEvent.callNext :: LEvent.callVisit p.2 :: acc)
        [LEvent.callNext] := by
    rw [specListTrace, List.foldr_map]
  refine ⟨?_, ?_, ?_⟩
  · intro hopen ht
    have hloop := listLoop_yields vp yields ((t, junk) :: rest) hge hnp
    have hrest : listLoop vp ((t, junk) :: rest) = (.ok, [.callNext]) := by
      simp [listLoop, ht]
    rw [hrest] at hloop
    simp [ListObjects, not_lt.mpr hopen, hloop, hfold]
  · intro hopen ht ht2
    have hloop := listLoop_yields vp yields ((t, junk) :: rest) hge hnp
    have hrest : listLoop vp ((t, junk) :: rest) = (.err t, [.callNext]) := by
      simp [listLoop, ht, ht2]
    rw [hrest] at hloop
    simp [ListObjects, not_lt.mpr hopen, hloop, hfold]
  · intro hopen nexts
    simp [ListObjects, hopen]

/-- C5 witness: two yielded names then end-of-sequence give the claimed
trace and nil; a -5 after one name gives the claimed trace and
`RadosError(-5)`; open status -1 aborts with an empty trace. -/
theorem C5_list_objects_witness :
    ListObjects ⟨0, [(0, "a"), (0, "b"), (-2, "")]⟩ (fun _ => false) =
      ⟨.ok, specListTrace ["a", "b"], true⟩ ∧
    ListObjects ⟨0, [(0, "a"), (-5, "")]⟩ (fun _ => false) =
      ⟨.err (-5), specListTrace ["a"], true⟩ ∧
    ListObjects ⟨-1, [(0, "a")]⟩ (fun _ => false) = ⟨.err (-1), [], false⟩ := by
  refine ⟨?_, ?_, ?_⟩
  · have h := (C5_list_objects 0 (-2) [(0, "a"), (0, "b")] [] "" (fun _ => false)
      (by decide) (by decide)).1 (by decide) rfl
    simpa using h
  · have h := (C5_list_objects 0 (-5) [(0, "a")] [] "" (fun _ => false)
      (by decide) (by decide)).2.1 (by decide) (by decide) (by decide)
    simpa using h
  · exact (C5_list_objects (-1) 0 [] [] "" (fun _ => false)
      (by decide) (by decide)).2.2 (by decide) [(0, "a")]

/-- C6: whenever the cursor was opened successfully (non-negative open
status) and the execution of `ListObjects` exits at all — by returning nil,
by returning an error, or by a panic unwinding out of the visit callback —
the deferred `rados_objects_list_close` has run on the cursor. -/
theorem C6_cursor_released (b : ListBackend) (vp : String → Bool)
    (hopen : 0 ≤ b.openStatus)
    (hexit : (ListObjects b vp).outcome ≠ .hung) :
    (ListObjects b vp).closed = true := by
  simp only [ListObjects, not_lt.mpr hopen, if_false] at hexit ⊢
  simpa using hexit

/-- C6 witness: a visitor that panics on the first yielded name still leaves
the cursor closed (and, for the record, the outcome is that panic). -/
theorem C6_cursor_released_witness :
    (ListObjects ⟨0, [(0, "a"), (-2, "")]⟩ (fun _ => true)).outcome =
      .panicked "a" ∧
    (ListObjects ⟨0, [(0, "a"), (-2, "")]⟩ (fun _ => true)).closed = true :=
  ⟨by decide,
   C6_cursor_released ⟨0, [(0, "a"), (-2, "")]⟩ (fun _ => true)
     (by decide) (by decide)⟩

/-- The prefix of `writeAt` that precedes the written data — the kept head
of the old content plus the zero padding — has length exactly the write
offset. -/
theorem writeAt_pre_length (old : List Nat) (off : Nat) :
    (old.take off ++ List.replicate (off - old.length) 0).length = off := by
  simp only [List.length_append, List.length_take, List.length_replicate]
  omega

/-- Reading back `data.length` bytes at offset `off` of an object just
written with `data` at `off` yields exactly `data`. -/
theorem writeAt_read_back (old data : List Nat) (off : Nat) :
    ((writeAt old data off).drop off).take data.length = data := by
  rw [writeAt, List.append_assoc]
  generalize hpre : old.take off ++ List.replicate (off - old.length) 0 = pre
  have hlen : pre.length = off := by
    rw [← hpre]
    exact writeAt_pre_length old off
  rw [← hlen, List.drop_left, List.take_left]

/-- Writing `data` into a fresh buffer of exactly `data.length` bytes fills
it completely with `data`. -/
theorem writeInto_exact (data : List Nat) :
    writeInto (List.replicate data.length 0) data = data := by
  rw [writeInto, List.length_replicate, List.take_length]
  have h : (List.replicate data.length (0 : Nat)).drop data.length = [] := by
    simp
  rw [h, List.append_nil]

/-- C7: over the spec-modelled object store, after a successful `Write` of a
non-empty byte sequence at offset `offset`, a `Read` of that many bytes at
the same offset on the same object succeeds with exactly that byte count, a
nil error, and the caller's buffer holding exactly the written bytes. -/
theorem C7_write_read_roundtrip (s : Store) (oid : String) (d : Nat)
    (ds : List Nat) (offset : Nat) :
    Write storeWriteBackend oid (d :: ds) offset = .ok none ∧
    Read (storeReadBackend (storeWrite s oid (d :: ds) offset)) oid
        (List.replicate (d :: ds).length 0) offset =
      ⟨Int.ofNat (d :: ds).length, none, d :: ds,
        [⟨oid, (d :: ds).length, offset⟩]⟩ := by
  constructor
  · simp [Write, storeWriteBackend]
  · have hbytes : storeReadBytes (storeWrite s oid (d :: ds) offset) oid
        (d :: ds).length offset = d :: ds := by
      simp only [storeReadBytes, storeWrite, if_pos rfl]
      exact writeAt_read_back (s oid) (d :: ds) offset
    have hcall : storeReadBackend (storeWrite s oid (d :: ds) offset) oid
        (d :: ds).length offset = (Int.ofNat (d :: ds).length, d :: ds) := by
      rw [storeReadBackend]
      simp only [hbytes]
    simp only [Read, List.length_replicate, hcall]
    rw [if_neg (by simp)]
    rw [if_pos (show (0 : Int) ≤ Int.ofNat (d :: ds).length from Int.ofNat_nonneg _)]
    rw [writeInto_exact]

/-- C10: `CreateManagedSnapshot` returns a non-nil snapshot pointer exactly
when it returns a nil error: a negative native status yields the nil
pointer together with `RadosError(code)`, and a non-negative status yields
a never-nil pointer to the allocated id together with a nil error. -/
theorem C10_snapshot_pointer_iff_no_error (b : SnapCreateBackend) :
    ((CreateManagedSnapshot b).1 ≠ none ↔ (CreateManagedSnapshot b).2 = none) ∧
    (b.status < 0 → CreateManagedSnapshot b = (none, some ⟨b.status⟩)) ∧
    (0 ≤ b.status → CreateManagedSnapshot b = (some b.snapId, none)) := by
  refine ⟨?_, ?_, ?_⟩
  · by_cases h : b.status < 0 <;> simp [CreateManagedSnapshot, h]
  · intro h
    simp [CreateManagedSnapshot, h]
  · intro h
    simp [CreateManagedSnapshot, not_lt.mpr h]

/-- C10 witness: status -1 yields `(nil, RadosError(-1))`; status 0 with
allocated id 42 yields a non-nil pointer to 42 and a nil error. -/
theorem C10_snapshot_pointer_iff_no_error_witness :
    CreateManagedSnapshot ⟨-1, 0⟩ = (none, some ⟨-1⟩) ∧
    CreateManagedSnapshot ⟨0, 42⟩ = (some 42, none) :=
  ⟨(C10_snapshot_pointer_iff_no_error ⟨-1, 0⟩).2.1 (by decide),
   (C10_snapshot_pointer_iff_no_error ⟨0, 42⟩).2.2 (by decide)⟩

end Rados
